import Mathlib

/-!
Verification of the BALANCE_FETCH repository: a shallow embedding of the
balance-normalization and pagination core (chain registry, numeric formatter,
balance fetchers, pagination engine, symbol resolver, client facade) from

  backend/packages/blockchain/thegraph/utils.py
  backend/packages/blockchain/thegraph/models.py
  backend/packages/blockchain/thegraph/client.py
  backend/packages/blockchain/thegraph/balance/balance_client.py
  backend/packages/blockchain/ethereum/balance/balance_client_thegraph.py

Python strings are modelled as Lean `String` (all text in the repository is
ASCII), Python ints as `Int`/`Nat`, and Python floats as exact rationals
(`PyFloat` below; the repository only feeds decimal literals and small
integers into its float paths, where binary floating point is exact or the
claims do not depend on the rounding).  Every HTTP request is modelled by an
upstream oracle `Nat → Nat → ...` giving the response for (page, attempt),
and the unbounded `while` loops are modelled with an explicit fuel parameter:
a result of `none` means the loop was still running after `fuel` iterations.
-/

/-! ### Basic string helpers (Python `str` operations, ASCII) -/

/-- Decimal digit character: models Python's rendering of a single digit. -/
def digitChar (d : Nat) : Char := Char.ofNat (48 + d)

/-- Digit list of a natural number, most significant first, with structural
fuel so that it reduces definitionally; `natDigits` instantiates the fuel. -/
def natDigitsAux : Nat → Nat → List Char
  | 0, _ => []
  | fuel + 1, n =>
    if n = 0 then [] else natDigitsAux fuel (n / 10) ++ [digitChar (n % 10)]

/-- Digit list of a positive natural number, most significant first. -/
def natDigits (n : Nat) : List Char := natDigitsAux n n

/-- Models Python `str(n)` for a non-negative int. -/
def natToString (n : Nat) : String :=
  if n = 0 then "0" else ⟨natDigits n⟩

/-- Models Python `str(z)` for an int. -/
def intToString (z : Int) : String :=
  if z < 0 then "-" ++ natToString z.natAbs else natToString z.toNat

/-- Models Python `s.lower()` (ASCII). -/
def pyLower (s : String) : String := ⟨s.data.map Char.toLower⟩

/-- Models Python `s.upper()` (ASCII). -/
def pyUpper (s : String) : String := ⟨s.data.map Char.toUpper⟩

/-- Models Python `s.strip()` (leading/trailing whitespace removal). -/
def pyStrip (s : String) : String :=
  ⟨((s.data.dropWhile Char.isWhitespace).reverse.dropWhile Char.isWhitespace).reverse⟩

/-- Models Python `s.rstrip(c)` for a single strip character. -/
def rstripChar (s : String) (c : Char) : String :=
  ⟨(s.data.reverse.dropWhile (· = c)).reverse⟩

/-- Left-pad a string with zeros to the given width (the digit-only core of
Python `str.zfill`). -/
def leftPadZeros (s : String) (width : Nat) : String :=
  ⟨List.replicate (width - s.data.length) '0' ++ s.data⟩

/-- Models Python `s.zfill(width)`, including its handling of a leading
sign character. -/
def pyZfill (s : String) (width : Nat) : String :=
  match s.data with
  | c :: cs =>
    if c = '+' ∨ c = '-' then ⟨c :: (leftPadZeros ⟨cs⟩ (width - 1)).data⟩
    else leftPadZeros s width
  | [] => leftPadZeros s width

/-- Substring test on character lists: some split of `hay` has `needle` as the
first part of its second half. -/
def listContainsSub (needle : List Char) : List Char → Bool
  | [] => needle = []
  | c :: cs => needle.isPrefixOf (c :: cs) || listContainsSub needle cs

/-- Models Python `needle in hay` on strings. -/
def strContainsSub (hay needle : String) : Bool :=
  listContainsSub needle.data hay.data

/-! ### Python numeric parsing

`int(s)` strips whitespace and accepts an optional sign followed by digits
(Python additionally accepts underscore grouping and non-ASCII digits, which
the repository never feeds in and which we do not model).  `float(s)` accepts
an optional fraction and exponent; we parse it into an exact rational. -/

/-- Value of a decimal digit character. -/
def digitVal? (c : Char) : Option Nat :=
  if c.isDigit then some (c.toNat - 48) else none

/-- Accumulating decimal parse of a digit list; fails on a non-digit. -/
def digitsVal? : List Char → Nat → Option Nat
  | [], acc => some acc
  | c :: cs, acc =>
    match digitVal? c with
    | some d => digitsVal? cs (acc * 10 + d)
    | none => none

/-- Models Python `int(s)`; `none` models the `ValueError` raise. -/
def pyInt? (s : String) : Option Int :=
  match (pyStrip s).data with
  | [] => none
  | '+' :: cs => if cs = [] then none else (digitsVal? cs 0).map Int.ofNat
  | '-' :: cs => if cs = [] then none else (digitsVal? cs 0).map (fun n => -(n : Int))
  | cs => (digitsVal? cs 0).map Int.ofNat

/-! ### Exact rationals standing in for Python floats

Python floats are modelled by exact (unnormalized) rationals with a positive
denominator.  All float values built by the repository are produced from
decimal literals, integer strings and powers of ten, on which the binary
rounding of IEEE doubles is irrelevant to every claim; we therefore compute
exactly.  The type is kept self-contained (no Mathlib `ℚ`) so that all
operations reduce definitionally inside `decide`. -/

/-- Exact rational; every constructor in this file keeps `den` positive. -/
structure PyFloat where
  num : Int
  den : Nat
deriving DecidableEq, Repr

/-- Embed an integer. -/
def PyFloat.ofInt (z : Int) : PyFloat := ⟨z, 1⟩

/-- `10 ^ z` for an int exponent (models Python `10 ** z`, an int for
`z ≥ 0` and a float for `z < 0`). -/
def PyFloat.pow10 (z : Int) : PyFloat :=
  if 0 ≤ z then ⟨(10 ^ z.toNat : Nat), 1⟩ else ⟨1, 10 ^ (-z).toNat⟩

/-- Negation. -/
def PyFloat.neg (x : PyFloat) : PyFloat := ⟨-x.num, x.den⟩

/-- Absolute value. -/
def PyFloat.abs (x : PyFloat) : PyFloat := ⟨x.num.natAbs, x.den⟩

/-- Multiplication. -/
def PyFloat.mul (x y : PyFloat) : PyFloat := ⟨x.num * y.num, x.den * y.den⟩

/-- Division by `10 ^ z` (the only divisions the repository performs are by
powers of ten: `1e18`, `10 ** decimals`, `1e3` … `1e18`). -/
def PyFloat.divPow10 (x : PyFloat) (z : Int) : PyFloat :=
  if 0 ≤ z then ⟨x.num, x.den * 10 ^ z.toNat⟩ else ⟨x.num * (10 ^ (-z).toNat : Nat), x.den⟩

/-- Strict order by cross multiplication (valid: denominators positive). -/
def PyFloat.ltb (x y : PyFloat) : Bool := x.num * (y.den : Int) < y.num * (x.den : Int)

/-- Non-strict order by cross multiplication. -/
def PyFloat.leb (x y : PyFloat) : Bool := x.num * (y.den : Int) ≤ y.num * (x.den : Int)

/-- Value equality by cross multiplication (models Python `==` on floats). -/
def PyFloat.eqb (x y : PyFloat) : Bool := x.num * (y.den : Int) = y.num * (x.den : Int)

/-- Floor to an integer. -/
def PyFloat.floor (x : PyFloat) : Int := Int.fdiv x.num x.den

/-- Subtraction of an integer. -/
def PyFloat.subInt (x : PyFloat) (z : Int) : PyFloat := ⟨x.num - z * x.den, x.den⟩

/-- Digit-list parse of an unsigned decimal with optional fraction and
exponent, as an exact rational. -/
def pyFloatCore? : List Char → Option PyFloat
  | cs =>
    let intPart := cs.takeWhile Char.isDigit
    let rest := cs.dropWhile Char.isDigit
    let (fracPart, rest2) :=
      match rest with
      | '.' :: cs2 => (cs2.takeWhile Char.isDigit, cs2.dropWhile Char.isDigit)
      | _ => ([], rest)
    let (expSign, expDigits, rest3) :=
      match rest2 with
      | 'e' :: '-' :: cs3 => ((-1 : Int), cs3.takeWhile Char.isDigit, cs3.dropWhile Char.isDigit)
      | 'e' :: '+' :: cs3 => ((1 : Int), cs3.takeWhile Char.isDigit, cs3.dropWhile Char.isDigit)
      | 'e' :: cs3 => ((1 : Int), cs3.takeWhile Char.isDigit, cs3.dropWhile Char.isDigit)
      | 'E' :: '-' :: cs3 => ((-1 : Int), cs3.takeWhile Char.isDigit, cs3.dropWhile Char.isDigit)
      | 'E' :: '+' :: cs3 => ((1 : Int), cs3.takeWhile Char.isDigit, cs3.dropWhile Char.isDigit)
      | 'E' :: cs3 => ((1 : Int), cs3.takeWhile Char.isDigit, cs3.dropWhile Char.isDigit)
      | _ => ((1 : Int), [], rest2)
    if rest3 ≠ [] then none
    else if intPart = [] ∧ fracPart = [] then none
    else
      let hasExpMarker := rest2 ≠ [] ∧ rest3 = []
      if hasExpMarker ∧ expDigits = [] then none
      else
        match digitsVal? intPart 0, digitsVal? fracPart 0 with
        | some i, some f =>
          let k := fracPart.length
          let mant : PyFloat := ⟨(i * 10 ^ k + f : Nat), 10 ^ k⟩
          let e : Int :=
            if hasExpMarker then expSign * ((digitsVal? expDigits 0).getD 0 : Nat) else 0
          some (mant.divPow10 (-e))
        | _, _ => none

/-- Models Python `float(s)` as an exact rational; `none` models the
`ValueError` raise. -/
def pyFloat? (s : String) : Option PyFloat :=
  match (pyStrip s).data with
  | [] => none
  | '+' :: cs => pyFloatCore? cs
  | '-' :: cs => (pyFloatCore? cs).map PyFloat.neg
  | cs => pyFloatCore? cs

/-! ### Chain registry (`utils.py` lines 9-87) -/

/-- `ChainInfo` pydantic model (`models.py`). -/
structure ChainInfo where
  chain_id : String
  name : String
  native_symbol : String
  network_name : String
deriving DecidableEq, Repr

/-- First-match association-list lookup: models Python dict indexing on the
literal dicts below (insertion order, unique keys). -/
def dictGet {α : Type} : List (String × α) → String → Option α
  | [], _ => none
  | (k, v) :: rest, key => if key = k then some v else dictGet rest key

/-- `SUPPORTED_CHAINS` mapping (`utils.py` lines 9-52). -/
def SUPPORTED_CHAINS : List (String × ChainInfo) :=
  [ ("1", ⟨"1", "Ethereum", "ETH", "mainnet"⟩),
    ("137", ⟨"137", "Polygon", "MATIC", "polygon"⟩),
    ("8453", ⟨"8453", "Base", "ETH", "base"⟩),
    ("42161", ⟨"42161", "Arbitrum", "ETH", "arbitrum-one"⟩),
    ("10", ⟨"10", "Optimism", "ETH", "optimism"⟩),
    ("56", ⟨"56", "BSC", "BNB", "bsc"⟩),
    ("43114", ⟨"43114", "Avalanche", "AVAX", "avalanche"⟩) ]

/-- `NETWORK_NAME_TO_CHAIN_ID` mapping (`utils.py` lines 55-63). -/
def NETWORK_NAME_TO_CHAIN_ID : List (String × String) :=
  [ ("ethereum", "1"), ("polygon", "137"), ("base", "8453"),
    ("arbitrum", "42161"), ("optimism", "10"), ("bsc", "56"),
    ("avalanche", "43114") ]

/-- `get_chain_info` (`utils.py` lines 66-87). -/
def get_chain_info (network : String) : Option ChainInfo :=
  let network_lower := pyLower network
  match dictGet SUPPORTED_CHAINS network_lower with
  | some ci => some ci
  | none =>
    match dictGet NETWORK_NAME_TO_CHAIN_ID network_lower with
    | some chain_id => dictGet SUPPORTED_CHAINS chain_id
    | none => none

/-! ### `format_token_balance` (`utils.py` lines 90-126) -/

/-- `format_token_balance` (`utils.py` lines 90-126).  A failing `int(...)`
parse raises `ValueError("invalid literal for int() with base 10: '...'")`,
caught by the handler that returns the "Error formatting balance: " string;
`int(quantity)` is evaluated before `int(divisor)`, so the quantity's error
message wins when both fail. -/
def format_token_balance (quantity divisor : String) : String :=
  if quantity = "" ∨ quantity = "0" then "0"
  else
    match pyInt? quantity with
    | none =>
      "Error formatting balance: invalid literal for int() with base 10: \x27" ++
        quantity ++ "\x27"
    | some quantity_int =>
      match pyInt? divisor with
      | none =>
        "Error formatting balance: invalid literal for int() with base 10: \x27" ++
          divisor ++ "\x27"
      | some divisor_int =>
        if divisor_int = 0 then intToString quantity_int
        else
          let whole_part := Int.fdiv quantity_int divisor_int
          let fractional_part := Int.fmod quantity_int divisor_int
          if fractional_part = 0 then intToString whole_part
          else
            let fractional_str :=
              pyZfill (intToString fractional_part) ((intToString divisor_int).length - 1)
            let fractional_str := rstripChar fractional_str '0'
            if fractional_str ≠ "" then
              intToString whole_part ++ "." ++ fractional_str
            else intToString whole_part

/-- The spec's own description of `format_amount` on already-parsed numbers
(spec §4.2): integer division and remainder, remainder left-padded with zeros
to `len(str(divisor)) - 1` digits, trailing zeros stripped, joined with a dot,
falling back to the whole part when the fraction strips to nothing. -/
def format_amount_spec (raw div : Nat) : String :=
  let whole := raw / div
  let frac := raw % div
  if frac = 0 then natToString whole
  else
    let padded := leftPadZeros (natToString frac) ((natToString div).length - 1)
    let stripped := rstripChar padded '0'
    if stripped = "" then natToString whole
    else natToString whole ++ "." ++ stripped

/-! ### Python float display formatting

Models the format specs the repository uses: `f"{x:.2f}"`, `f"{x:.6f}"`,
`f"{x:.18f}"`, `f"{x:,.2f}"` and `f"{x:.2e}"`.  CPython rounds the decimal
expansion of the binary double half-to-even; on the exact rationals used in
this development (where the double is exact) that is half-to-even rounding of
the rational itself, which is what we implement. -/

/-- Round to the nearest integer, ties to even. -/
def PyFloat.roundHalfEven (x : PyFloat) : Int :=
  let n := x.floor
  let frac := x.subInt n   -- in [0, 1)
  let twice := frac.num * 2
  if twice < (frac.den : Int) then n
  else if (frac.den : Int) < twice then n + 1
  else if n % 2 = 0 then n else n + 1

/-- Insert thousands separators into a reversed digit list. -/
def commaRev : List Char → Nat → List Char
  | [], _ => []
  | c :: cs, k => if k = 3 then ',' :: c :: commaRev cs 1 else c :: commaRev cs (k + 1)

/-- Models the `,` format-spec option: `1500 ↦ "1,500"`. -/
def commaGroup (s : String) : String := ⟨(commaRev s.data.reverse 0).reverse⟩

/-- Models `f"{x:.precf}"` (and with `thousands` also `f"{x:,.precf}"`). -/
def fmtFixed (x : PyFloat) (prec : Nat) (thousands : Bool) : String :=
  let neg := x.num < 0
  let m := (x.abs.mul ⟨(10 ^ prec : Nat), 1⟩).roundHalfEven
  let mn := m.toNat
  let whole := mn / 10 ^ prec
  let fracd := mn % 10 ^ prec
  let ws := if thousands then commaGroup (natToString whole) else natToString whole
  let s := if prec = 0 then ws else ws ++ "." ++ leftPadZeros (natToString fracd) prec
  (if neg then "-" else "") ++ s

/-- Floor of the base-10 logarithm of a positive rational, computed from the
digit counts of numerator and denominator. -/
def decExp (a : PyFloat) : Int :=
  let base : Int := ((natToString a.num.natAbs).length : Int) - ((natToString a.den).length : Int)
  if (PyFloat.pow10 base).leb a then base else base - 1

/-- Models `f"{x:.2e}"` (scientific notation, 2 fractional digits, sign and at
least two digits in the exponent). -/
def fmtSci2 (x : PyFloat) : String :=
  if x.num = 0 then "0.00e+00"
  else
    let neg := x.num < 0
    let a := x.abs
    let e := decExp a
    let n := ((a.divPow10 e).mul ⟨100, 1⟩).roundHalfEven.toNat
    let (n, e) := if 1000 ≤ n then (100, e + 1) else (n, e)
    (if neg then "-" else "") ++ natToString (n / 100) ++ "." ++
      leftPadZeros (natToString (n % 100)) 2 ++ "e" ++
      (if e < 0 then "-" else "+") ++ leftPadZeros (natToString e.natAbs) 2

/-- `format_usd_value` (`utils.py` lines 148-197).  The `isinstance` and NaN
guards cannot fire on exact rationals.  Note the source formats the *signed*
`value` (not `abs_value`) in the scientific, six-decimal and plain two-decimal
branches while also prepending `sign`. -/
def format_usd_value (value : PyFloat) : String :=
  if value.eqb ⟨0, 1⟩ then "$0.00"
  else
    let abs_value := value.abs
    let sign := if value.ltb ⟨0, 1⟩ then "-" else ""
    if abs_value.ltb ⟨1, 1000000⟩ then sign ++ "$" ++ fmtSci2 value
    else if abs_value.ltb ⟨1, 100⟩ then sign ++ "$" ++ fmtFixed value 6 false
    else if (PyFloat.pow10 18).leb abs_value then
      sign ++ "$" ++ fmtFixed (abs_value.divPow10 18) 2 true ++ "Qi"
    else if (PyFloat.pow10 15).leb abs_value then
      sign ++ "$" ++ fmtFixed (abs_value.divPow10 15) 2 true ++ "Qa"
    else if (PyFloat.pow10 12).leb abs_value then
      sign ++ "$" ++ fmtFixed (abs_value.divPow10 12) 2 true ++ "T"
    else if (PyFloat.pow10 9).leb abs_value then
      sign ++ "$" ++ fmtFixed (abs_value.divPow10 9) 2 true ++ "B"
    else if (PyFloat.pow10 6).leb abs_value then
      sign ++ "$" ++ fmtFixed (abs_value.divPow10 6) 2 true ++ "M"
    else if (PyFloat.pow10 3).leb abs_value then
      sign ++ "$" ++ fmtFixed (abs_value.divPow10 3) 2 true ++ "K"
    else sign ++ "$" ++ fmtFixed value 2 true

/-! ### Data model (`models.py`) and upstream response model

HTTP traffic is modelled per request: an upstream oracle maps
(page, attempt-on-that-page) to either a received response (status code plus
the decoded `{"data": [...]}` payload) or a raised transport exception.
`raise_for_status` of the httpx client raises `HTTPStatusError` exactly on
non-2xx statuses. -/

/-- The outcome of one HTTP request. -/
inductive HttpResult (α : Type) where
  | resp (status : Nat) (data : List α)
  | timeoutExc (msg : String)
  | connectExc (msg : String)
  | networkExc (msg : String)
deriving DecidableEq, Repr

/-- `TokenBalance` pydantic model (`models.py` lines 28-38). -/
structure TokenBalance where
  token_address : String
  token_name : String
  token_symbol : String
  token_quantity : String
  token_divisor : String
  token_price_usd : String
  chain_id : Option String
  chain_name : Option String
deriving DecidableEq, Repr

/-- `NativeBalance` pydantic model (`models.py` lines 18-25). -/
structure NativeBalance where
  chain_id : String
  chain_name : String
  balance : String
  symbol : String
  price_usd : Option String
deriving DecidableEq, Repr

/-- The fields of a `TheGraphTokenBalance` response item that the facade path
reads (`models.py` lines 41-54; `contract`, `name`, `symbol`, `amount`,
`decimals` are required by the pydantic model, `value` is optional). -/
structure FacadeEntry where
  contract : String
  name : String
  symbol : String
  amount : String
  value : Option PyFloat
  decimals : Int
deriving DecidableEq, Repr

/-- A raw token item as the dict-based clients read it (plain `dict.get`
accesses, so every field may be absent). -/
structure DictEntry where
  contract : Option String
  name : Option String
  symbol : Option String
  amount : Option String
  value : Option PyFloat
  decimals : Option Int
deriving DecidableEq, Repr

/-- A native-balance response item read through the pydantic model
(`amount` required, `balance` optional legacy field). -/
structure FacadeNativeEntry where
  amount : String
  balance : Option String
deriving DecidableEq, Repr

/-- A native-balance response item as the dict-based clients read it. -/
structure DictNativeEntry where
  amount : Option String
  balance : Option String
deriving DecidableEq, Repr

/-- Python `a or b` for an optional string `a` (None and `""` are falsy). -/
def pyOrStrD (a : Option String) (b : String) : String :=
  match a with
  | some s => if s = "" then b else s
  | none => b

/-- The key-resolution prelude shared by every function: use the explicit
`api_key` parameter if truthy, else the `THEGRAPH_API_KEY` environment
variable if truthy; `none` means no usable key. -/
def pyOrKey (api_key env : Option String) : Option String :=
  match api_key with
  | some s => if s = "" then (match env with
      | some e => if e = "" then none else some e
      | none => none) else some s
  | none =>
    match env with
    | some e => if e = "" then none else some e
    | none => none

/-- Python `str(x)` for the float values this repository produces (exact
decimal values of at most 17 fractional digits; the shortest-round-trip and
exponent displays of CPython for other floats are not exercised here). -/
def pyFloatRepr (x : PyFloat) : String :=
  if x.num % (x.den : Int) = 0 then intToString (Int.fdiv x.num x.den) ++ ".0"
  else (if x.num < 0 then "-" else "") ++ rstripChar (fmtFixed x.abs 17 false) '0'

/-- Python `str(10 ** decimals)`: an int string for non-negative exponents, a
float display for negative ones. -/
def pow10Str (z : Int) : String :=
  if 0 ≤ z then natToString (10 ^ z.toNat) else pyFloatRepr (PyFloat.pow10 z)

/-- Python `str(balance.value or 0)` (`client.py` line 191): falsy values
(None, `0.0`) become the int `0`. -/
def pyStrOfValueOr0 (v : Option PyFloat) : String :=
  match v with
  | none => "0"
  | some q => if q.num = 0 then "0" else pyFloatRepr q

/-- `f"{x:.18f}".rstrip("0").rstrip(".")` as used by the dict-based clients. -/
def f18strip (x : PyFloat) : String :=
  rstripChar (rstripChar (fmtFixed x 18 false) '0') '.'

/-- Error strings of the status branches (shared verbatim by every client). -/
def authMsg : String := "The Graph API authentication failed. Please check your API key."

/-- 403 error string. -/
def forbMsg : String := "The Graph API access forbidden. Please check your API key permissions."

/-- 429 error string. -/
def rlMsg : String := "The Graph API rate limit exceeded. Please wait and try again."

/-! ### Unified client facade (`client.py`) -/

/-- The state a successfully constructed `TheGraphClient` holds. -/
structure TheGraphClient where
  api_key : String
deriving DecidableEq, Repr

/-- `TheGraphClient.__init__` (`client.py` lines 36-56): `api_key or
os.getenv("THEGRAPH_API_KEY")`, then a `ValueError` raise if the result is
falsy.  The HTTP session is created only after this check and opens no
connection, so a missing key fails before any network access. -/
def TheGraphClient_init (api_key env : Option String) : Except String TheGraphClient :=
  match pyOrKey api_key env with
  | none =>
    .error "The Graph API key is required. Provide it as parameter or set THEGRAPH_API_KEY environment variable."
  | some key => .ok ⟨key⟩

/-- Normalization of one response item into a `TokenBalance`
(`client.py` lines 180-195); note `balance.decimals or 18` treats a literal
`0` decimals as falsy and `balance.name or "Unknown"` treats `""` as falsy. -/
def facadeToken (ci : ChainInfo) (b : FacadeEntry) : TokenBalance :=
  let decimals := if b.decimals = 0 then 18 else b.decimals
  { token_address := b.contract
    token_name := if b.name = "" then "Unknown" else b.name
    token_symbol := if b.symbol = "" then "UNKNOWN" else b.symbol
    token_quantity := b.amount
    token_divisor := pow10Str decimals
    token_price_usd := pyStrOfValueOr0 b.value
    chain_id := some ci.chain_id
    chain_name := some ci.name }

/-- `TheGraphClient.get_token_balances` (`client.py` lines 140-217) for one
already-issued request: an unsupported network returns `[]` without any
request; non-2xx statuses and transport failures raise `ValueError` with the
messages of lines 201-217. -/
def get_token_balances (network : String) (r : HttpResult FacadeEntry) :
    Except String (List TokenBalance) :=
  match get_chain_info network with
  | none => .ok []
  | some ci =>
    match r with
    | .resp status data =>
      if 200 ≤ status ∧ status < 300 then .ok (data.map (facadeToken ci))
      else if status = 401 then .error authMsg
      else if status = 403 then .error forbMsg
      else if status = 429 then .error rlMsg
      else .error ("HTTP error! status: " ++ natToString status)
    | .timeoutExc m => .error ("Error fetching token balances: " ++ m)
    | .connectExc m => .error ("Error fetching token balances: " ++ m)
    | .networkExc m => .error ("Error fetching token balances: " ++ m)

/-- Result of a pagination run: the requests made (page, attempt) in order,
and the outcome — `none` while the loop is still running after the given
fuel, otherwise the returned value. -/
structure FacadeRun where
  trace : List (Nat × Nat)
  result : Option (Except String (List TokenBalance))
deriving Repr

/-- The `while True` loop of `TheGraphClient.get_all_token_balances`
(`client.py` lines 232-259): stop on an empty page (return accumulated), stop
after a short page (return accumulated including it), advance otherwise;
a raised `ValueError` whose lowercase text contains "rate limit" retries the
same page after a sleep, any other `ValueError` propagates.  There is no page
ceiling in this loop. -/
def facadeLoopAux (network : String) (upstream : Nat → Nat → HttpResult FacadeEntry) :
    Nat → Nat → Nat → List TokenBalance → List (Nat × Nat) → FacadeRun
  | 0, _, _, _, trace => ⟨trace, none⟩
  | fuel + 1, page, att, all_tokens, trace =>
    match get_chain_info network with
    | none => ⟨trace, some (.ok all_tokens)⟩
    | some _ =>
      let r := upstream page att
      let trace := trace ++ [(page, att)]
      match get_token_balances network r with
      | .error msg =>
        if strContainsSub (pyLower msg) "rate limit" then
          facadeLoopAux network upstream fuel page (att + 1) all_tokens trace
        else ⟨trace, some (.error msg)⟩
      | .ok tokens =>
        if tokens = [] then ⟨trace, some (.ok all_tokens)⟩
        else
          let all_tokens := all_tokens ++ tokens
          if tokens.length < 10 then ⟨trace, some (.ok all_tokens)⟩
          else facadeLoopAux network upstream fuel (page + 1) 0 all_tokens trace

/-- `TheGraphClient.get_all_token_balances` (`client.py` lines 219-259). -/
def get_all_token_balances (network : String) (upstream : Nat → Nat → HttpResult FacadeEntry)
    (fuel : Nat) : FacadeRun :=
  facadeLoopAux network upstream fuel 1 0 [] []

/-- `TheGraphClient.get_token_balance_by_symbol` (`client.py` lines 261-282):
one full pagination, then first case-insensitive symbol match, else `None`. -/
def get_token_balance_by_symbol (network token_symbol : String)
    (upstream : Nat → Nat → HttpResult FacadeEntry) (fuel : Nat) :
    Option (Except String (Option TokenBalance)) :=
  match (get_all_token_balances network upstream fuel).result with
  | none => none
  | some (.error e) => some (.error e)
  | some (.ok all_tokens) =>
    let token_symbol_upper := pyUpper token_symbol
    some (.ok (all_tokens.find? (fun t => pyUpper t.token_symbol == token_symbol_upper)))

/-- `TheGraphClient.get_native_balance` (`client.py` lines 70-138): resolves
the chain (None when unsupported), reads the first item's `amount or balance
or "0"`, and — per lines 106-120 — returns `None` both when that string is
`"0"` and when the float conversion is zero; errors raise `ValueError`. -/
def get_native_balance (network : String) (r : HttpResult FacadeNativeEntry) :
    Except String (Option NativeBalance) :=
  match get_chain_info network with
  | none => .ok none
  | some ci =>
    match r with
    | .resp status data =>
      if 200 ≤ status ∧ status < 300 then
        match data.head? with
        | none => .ok none
        | some nb =>
          let balance_wei := if nb.amount = "" then pyOrStrD nb.balance "0" else nb.amount
          if balance_wei ≠ "" ∧ balance_wei ≠ "0" then
            match pyFloat? balance_wei with
            | none =>
              .error ("Error fetching native balance: could not convert string to float: \x27" ++
                balance_wei ++ "\x27")
            | some q =>
              let balance_eth := q.divPow10 18
              if balance_eth.eqb ⟨0, 1⟩ then .ok none
              else .ok (some ⟨ci.chain_id, ci.name, balance_wei, ci.native_symbol, some "0"⟩)
          else .ok none
      else if status = 401 then .error authMsg
      else if status = 403 then .error forbMsg
      else if status = 429 then .error rlMsg
      else .error ("HTTP error! status: " ++ natToString status)
    | .timeoutExc m => .error ("Error fetching native balance: " ++ m)
    | .connectExc m => .error ("Error fetching native balance: " ++ m)
    | .networkExc m => .error ("Error fetching native balance: " ++ m)

/-! ### Dict-based thegraph balance client (`balance/balance_client.py`)

The dict results are modelled by structures; an `Option` field set to `none`
models an absent key where the source's dicts differ in key sets (and the
explicit `None` value where they do not). -/

/-- A token entry of the multi-token result dicts. -/
structure TokenDict where
  token_type : String
  token_symbol : String
  token_address : String
  token_name : Option String
  balance : String
  balance_raw : String
  decimals : Int
  usd_value : Option String
  chain_name : Option String
  chain_id : Option String
  error : Option String
deriving DecidableEq, Repr

/-- The `{"tokens": [...], "error": ...}` result dict; both keys are present
on every return path of the multi-token functions. -/
structure TokensDict where
  tokens : List TokenDict
  error : Option String
deriving DecidableEq, Repr

/-- The key set of a `TokensDict` (for modelling Python `"error" in d`). -/
def tokensDictKeys (_ : TokensDict) : List String := ["tokens", "error"]

/-- Result of a dict-based pagination run: requests made, and the returned
dict (`none` while still running after the given fuel). -/
structure DictRun where
  trace : List (Nat × Nat)
  result : Option TokensDict
deriving Repr

/-- The native-balance result dict. -/
structure NativeDict where
  token_type : String
  token_symbol : String
  token_address : String
  balance : String
  balance_raw : String
  decimals : Int
  chain_name : Option String
  chain_id : Option String
  error : Option String
deriving DecidableEq, Repr

/-- Item loop of `get_all_token_balances_thegraph` (`balance_client.py` lines
381-407): items already appended stay appended when a later item's
`float(...)` conversion raises (the exception is caught by the loop's generic
handler, whose message is Python's `ValueError` text). -/
def processTokensTG (ci : ChainInfo) :
    List DictEntry → List TokenDict → List TokenDict × Option String
  | [], acc => (acc, none)
  | b :: rest, acc =>
    let decimals := b.decimals.getD 18
    let balance_raw := b.amount.getD "0"
    match pyFloat? balance_raw with
    | none =>
      (acc, some ("Error fetching token balances: could not convert string to float: \x27" ++
        balance_raw ++ "\x27"))
    | some q =>
      let balance_num := q.divPow10 decimals
      let balance_str := f18strip balance_num
      let price_usd := b.value.getD ⟨0, 1⟩
      let usd_value_str := fmtFixed (balance_num.mul price_usd) 2 false
      processTokensTG ci rest (acc ++ [{
        token_type := "ERC20"
        token_symbol := b.symbol.getD "UNKNOWN"
        token_address := b.contract.getD ""
        token_name := some (b.name.getD "Unknown")
        balance := balance_str
        balance_raw := balance_raw
        decimals := decimals
        usd_value := some usd_value_str
        chain_name := some ci.name
        chain_id := some ci.chain_id
        error := none }])

/-- The `while True` loop of `get_all_token_balances_thegraph`
(`balance_client.py` lines 338-428): 401/403 return an *empty* token list
with the error, 429 sleeps and retries the same page, any other non-2xx and
any exception return the accumulated tokens with the error, an empty page or
a short page breaks with success. -/
def tgLoopAux (ci : ChainInfo) (upstream : Nat → Nat → HttpResult DictEntry) :
    Nat → Nat → Nat → List TokenDict → List (Nat × Nat) → DictRun
  | 0, _, _, _, trace => ⟨trace, none⟩
  | fuel + 1, page, att, all_tokens, trace =>
    let r := upstream page att
    let trace := trace ++ [(page, att)]
    match r with
    | .resp status data =>
      if status = 401 then ⟨trace, some ⟨[], some authMsg⟩⟩
      else if status = 403 then ⟨trace, some ⟨[], some forbMsg⟩⟩
      else if status = 429 then tgLoopAux ci upstream fuel page (att + 1) all_tokens trace
      else if status < 200 ∨ 300 ≤ status then
        ⟨trace, some ⟨all_tokens, some ("HTTP error! status: " ++ natToString status)⟩⟩
      else if data = [] then ⟨trace, some ⟨all_tokens, none⟩⟩
      else
        match processTokensTG ci data all_tokens with
        | (toks, some e) => ⟨trace, some ⟨toks, some e⟩⟩
        | (toks, none) =>
          if data.length < 10 then ⟨trace, some ⟨toks, none⟩⟩
          else tgLoopAux ci upstream fuel (page + 1) 0 toks trace
    | .timeoutExc m => ⟨trace, some ⟨all_tokens, some ("Error fetching token balances: " ++ m)⟩⟩
    | .connectExc m => ⟨trace, some ⟨all_tokens, some ("Error fetching token balances: " ++ m)⟩⟩
    | .networkExc m => ⟨trace, some ⟨all_tokens, some ("Error fetching token balances: " ++ m)⟩⟩

/-- `get_all_token_balances_thegraph` (`balance_client.py` lines 283-428). -/
def get_all_token_balances_thegraph (api_key env : Option String) (network : String)
    (upstream : Nat → Nat → HttpResult DictEntry) (fuel : Nat) : DictRun :=
  match pyOrKey api_key env with
  | none => ⟨[], some ⟨[], some "THEGRAPH_API_KEY environment variable is not set"⟩⟩
  | some _ =>
    match get_chain_info network with
    | none => ⟨[], some ⟨[], some ("Unsupported network: " ++ network)⟩⟩
    | some ci => tgLoopAux ci upstream fuel 1 0 [] []

/-- The two result shapes `get_token_balance_thegraph` can produce: the whole
multi-token dict, or one token record. -/
inductive TokenLookup where
  | wholeDict (d : TokensDict)
  | record (t : TokenDict)
deriving DecidableEq, Repr

/-- Sparse error/not-found record of `get_token_balance_thegraph`
(`balance_client.py` lines 237-245, 249-257, 272-280). -/
def tokenErrRecord (token_symbol : String) (e : String) : TokenDict :=
  { token_type := "ERC20", token_symbol := pyUpper token_symbol, token_address := ""
    token_name := none, balance := "0", balance_raw := "0", decimals := 18
    usd_value := none, chain_name := none, chain_id := none, error := some e }

/-- `get_token_balance_thegraph` (`balance_client.py` lines 199-280).  The
source tests `if "error" in all_tokens:` — a dict *key*-membership test, and
every return path of `get_all_token_balances_thegraph` includes the `"error"`
key — so the whole multi-token dict is returned on every fetch; the symbol
search below the test is dead code (kept here under the same test). -/
def get_token_balance_thegraph (account_address token_symbol network : String)
    (api_key env : Option String) (upstream : Nat → Nat → HttpResult DictEntry)
    (fuel : Nat) : Option TokenLookup :=
  match pyOrKey api_key env with
  | none =>
    some (.record (tokenErrRecord token_symbol "THEGRAPH_API_KEY environment variable is not set"))
  | some key =>
    match get_chain_info network with
    | none =>
      some (.record (tokenErrRecord token_symbol ("Unsupported network: " ++ network)))
    | some _ =>
      match (get_all_token_balances_thegraph (some key) env network upstream fuel).result with
      | none => none
      | some all_tokens =>
        if "error" ∈ tokensDictKeys all_tokens then some (.wholeDict all_tokens)
        else
          let token_symbol_upper := pyUpper token_symbol
          match all_tokens.tokens.find? (fun t => pyUpper t.token_symbol == token_symbol_upper) with
          | some t => some (.record t)
          | none =>
            some (.record (tokenErrRecord token_symbol
              ("Token " ++ pyUpper token_symbol ++ " not found for " ++ account_address ++
                " on " ++ network)))

/-- The message of the `UnboundLocalError` CPython raises when
`get_native_balance_thegraph` reads `query_params` (see below), as worded by
CPython 3.11+ (the repository's `ChainInfo | None` annotations require at
least 3.10; 3.10 words the same error "local variable \x27query_params\x27
referenced before assignment"). -/
def queryParamsUnboundMsg : String :=
  "cannot access local variable \x27query_params\x27 where it is not associated with a value"

/-- `get_native_balance_thegraph` (`balance_client.py` lines 22-196).  The
source assigns `query_params` only inside the unreachable tail of the
`if not chain_info:` branch (lines 77-83, after that branch's `return`).
That dead assignment still makes `query_params` a local of the function, so
once a key and a supported network are present, evaluating the request's
arguments at line 91 raises `UnboundLocalError` before any request is
issued; the generic `except Exception` handler at lines 187-196 converts it
into the error dict below. -/
def get_native_balance_thegraph (_account_address network : String)
    (api_key env : Option String) : NativeDict :=
  match pyOrKey api_key env with
  | none =>
    ⟨"native", "ETH", "0x0", "0", "0", 18, none, none,
      some "THEGRAPH_API_KEY environment variable is not set"⟩
  | some _ =>
    match get_chain_info network with
    | none =>
      ⟨"native", "ETH", "0x0", "0", "0", 18, none, none,
        some ("Unsupported network: " ++ network)⟩
    | some ci =>
      ⟨"native", ci.native_symbol, "0x0", "0", "0", 18, none, none,
        some ("Error fetching native balance: " ++ queryParamsUnboundMsg)⟩

/-! ### Ethereum dict-based client (`ethereum/balance/balance_client_thegraph.py`) -/

/-- `get_native_eth_balance_thegraph` (`balance_client_thegraph.py` lines
15-187): the literal `"0"` amount branch (lines 127-138) is a zero-balance
success with `error = None`. -/
def get_native_eth_balance_thegraph (api_key env : Option String)
    (r : HttpResult DictNativeEntry) : NativeDict :=
  match pyOrKey api_key env with
  | none =>
    ⟨"native", "ETH", "0x0", "0", "0", 18, none, none,
      some "THEGRAPH_API_KEY environment variable is not set"⟩
  | some _ =>
    match r with
    | .resp status data =>
      if status = 401 then ⟨"native", "ETH", "0x0", "0", "0", 18, none, none, some authMsg⟩
      else if status = 403 then ⟨"native", "ETH", "0x0", "0", "0", 18, none, none, some forbMsg⟩
      else if status = 429 then ⟨"native", "ETH", "0x0", "0", "0", 18, none, none, some rlMsg⟩
      else if status < 200 ∨ 300 ≤ status then
        ⟨"native", "ETH", "0x0", "0", "0", 18, none, none,
          some ("HTTP error! status: " ++ natToString status)⟩
      else
        match data.head? with
        | none => ⟨"native", "ETH", "0x0", "0", "0", 18, some "Ethereum", some "1", none⟩
        | some nb =>
          let balance_wei := pyOrStrD nb.amount (nb.balance.getD "0")
          if balance_wei = "0" then
            ⟨"native", "ETH", "0x0", "0", "0", 18, some "Ethereum", some "1", none⟩
          else
            match pyFloat? balance_wei with
            | none =>
              ⟨"native", "ETH", "0x0", "0", "0", 18, none, none,
                some ("Error fetching ETH balance: could not convert string to float: \x27" ++
                  balance_wei ++ "\x27")⟩
            | some q =>
              let balance_str := f18strip (q.divPow10 18)
              ⟨"native", "ETH", "0x0", balance_str, balance_wei, 18,
                some "Ethereum", some "1", none⟩
    | .timeoutExc m =>
      ⟨"native", "ETH", "0x0", "0", "0", 18, none, none,
        some ("Error fetching ETH balance: " ++ m)⟩
    | .connectExc m =>
      ⟨"native", "ETH", "0x0", "0", "0", 18, none, none,
        some ("Error fetching ETH balance: " ++ m)⟩
    | .networkExc m =>
      ⟨"native", "ETH", "0x0", "0", "0", 18, none, none,
        some ("Error fetching ETH balance: " ++ m)⟩

/-- The "maximum page limit" message of the ethereum loop (line 444, with
`max_pages = 50`). -/
def limitMsg : String :=
  "Reached maximum page limit (50). There may be more tokens. Consider filtering by token_symbols."

/-- Item loop of `get_multiple_token_balances_ethereum_thegraph` (lines
380-411), including the optional `token_symbols` filter of line 410. -/
def processTokensEth (token_symbols : Option (List String)) :
    List DictEntry → List TokenDict → List TokenDict × Option String
  | [], acc => (acc, none)
  | b :: rest, acc =>
    let decimals := b.decimals.getD 18
    let balance_raw := b.amount.getD "0"
    match pyFloat? balance_raw with
    | none =>
      (acc, some ("Error fetching token balances: could not convert string to float: \x27" ++
        balance_raw ++ "\x27"))
    | some q =>
      let balance_num := q.divPow10 decimals
      let balance_str := f18strip balance_num
      let price_usd := b.value.getD ⟨0, 1⟩
      let usd_value_str := fmtFixed (balance_num.mul price_usd) 2 false
      let token_data : TokenDict := {
        token_type := "ERC20"
        token_symbol := b.symbol.getD "UNKNOWN"
        token_address := b.contract.getD ""
        token_name := some (b.name.getD "Unknown")
        balance := balance_str
        balance_raw := balance_raw
        decimals := decimals
        usd_value := some usd_value_str
        chain_name := some "Ethereum"
        chain_id := some "1"
        error := none }
      let keep :=
        match token_symbols with
        | none => true
        | some syms => (syms.map pyUpper).contains (pyUpper token_data.token_symbol)
      processTokensEth token_symbols rest (if keep then acc ++ [token_data] else acc)

/-- The `while page <= max_pages` loop of
`get_multiple_token_balances_ethereum_thegraph` (lines 318-445):
transport failures around the request itself return the accumulated tokens
(inner `except` of lines 344-349), 401/403 return an *empty* token list, 429
retries the same page, other non-2xx and item-processing exceptions return
the accumulated tokens with the error, and leaving the loop with
`page > max_pages` returns the accumulated tokens with `limitMsg`. -/
def ethLoopAux (token_symbols : Option (List String))
    (upstream : Nat → Nat → HttpResult DictEntry) :
    Nat → Nat → Nat → List TokenDict → List (Nat × Nat) → DictRun
  | 0, _, _, _, trace => ⟨trace, none⟩
  | fuel + 1, page, att, all_tokens, trace =>
    if 50 < page then ⟨trace, some ⟨all_tokens, some limitMsg⟩⟩
    else
      let r := upstream page att
      let trace := trace ++ [(page, att)]
      match r with
      | .timeoutExc m =>
        ⟨trace, some ⟨all_tokens, some ("Network error during pagination: " ++ m)⟩⟩
      | .connectExc m =>
        ⟨trace, some ⟨all_tokens, some ("Network error during pagination: " ++ m)⟩⟩
      | .networkExc m =>
        ⟨trace, some ⟨all_tokens, some ("Network error during pagination: " ++ m)⟩⟩
      | .resp status data =>
        if status = 401 then ⟨trace, some ⟨[], some authMsg⟩⟩
        else if status = 403 then ⟨trace, some ⟨[], some forbMsg⟩⟩
        else if status = 429 then ethLoopAux token_symbols upstream fuel page (att + 1) all_tokens trace
        else if status < 200 ∨ 300 ≤ status then
          ⟨trace, some ⟨all_tokens, some ("HTTP error! status: " ++ natToString status)⟩⟩
        else if data = [] then ⟨trace, some ⟨all_tokens, none⟩⟩
        else
          match processTokensEth token_symbols data all_tokens with
          | (toks, some e) => ⟨trace, some ⟨toks, some e⟩⟩
          | (toks, none) =>
            if data.length < 10 then ⟨trace, some ⟨toks, none⟩⟩
            else ethLoopAux token_symbols upstream fuel (page + 1) 0 toks trace

/-- `get_multiple_token_balances_ethereum_thegraph` (lines 265-453). -/
def get_multiple_token_balances_ethereum_thegraph (api_key env : Option String)
    (token_symbols : Option (List String)) (upstream : Nat → Nat → HttpResult DictEntry)
    (fuel : Nat) : DictRun :=
  match pyOrKey api_key env with
  | none => ⟨[], some ⟨[], some "THEGRAPH_API_KEY environment variable is not set"⟩⟩
  | some _ => ethLoopAux token_symbols upstream fuel 1 0 [] []

/-! ### Lemmas: decimal rendering produces sign-free digit strings -/

/-- Digits are in `0`–`9`. -/
theorem digitChar_isDigit {d : Nat} (h : d < 10) : (digitChar d).isDigit = true := by
  interval_cases d <;> decide

/-- Every character `natDigitsAux` emits is a digit. -/
theorem natDigitsAux_isDigit : ∀ fuel n : Nat, ∀ c ∈ natDigitsAux fuel n, c.isDigit = true := by
  intro fuel
  induction fuel with
  | zero => intro n c hc; simp [natDigitsAux] at hc
  | succ f ih =>
    intro n c hc
    rw [natDigitsAux] at hc
    by_cases h : n = 0
    · rw [if_pos h] at hc; simp at hc
    · rw [if_neg h] at hc
      rcases List.mem_append.mp hc with h' | h'
      · exact ih _ c h'
      · rcases List.mem_singleton.mp h' with rfl
        exact digitChar_isDigit (Nat.mod_lt _ (by decide))

/-- Every character of `natToString n` is a digit. -/
theorem natToString_isDigit (n : Nat) : ∀ c ∈ (natToString n).data, c.isDigit = true := by
  intro c hc
  unfold natToString at hc
  by_cases h : n = 0
  · rw [if_pos h] at hc
    rcases List.mem_singleton.mp hc with rfl
    decide
  · rw [if_neg h] at hc
    exact natDigitsAux_isDigit n n c hc

/-- A digit is not a sign character. -/
theorem isDigit_ne_sign {c : Char} (h : c.isDigit = true) : ¬(c = '+' ∨ c = '-') := by
  rintro (rfl | rfl) <;> exact absurd h (by decide)

/-- On digit-only strings, `zfill` is plain zero left-padding. -/
theorem pyZfill_of_digits (s : String) (hs : ∀ c ∈ s.data, c.isDigit = true) (w : Nat) :
    pyZfill s w = leftPadZeros s w := by
  unfold pyZfill
  cases h : s.data with
  | nil => rfl
  | cons c cs =>
    have hd : c.isDigit = true := hs c (h ▸ List.mem_cons_self c cs)
    simp only [h]
    rw [if_neg (isDigit_ne_sign hd)]

/-- `str` of a non-negative int is `str` of the natural. -/
theorem intToString_natCast (n : Nat) : intToString (n : Int) = natToString n := by
  unfold intToString
  rw [if_neg (by simp : ¬((n : Int) < 0))]
  simp

/-- Floor division of cast naturals is cast natural division. -/
theorem fdiv_ofNat (m n : Nat) : Int.fdiv (Int.ofNat m) (Int.ofNat n) = Int.ofNat (m / n) := by
  cases m with
  | zero => show (0 : Int) = Int.ofNat (0 / n); rw [Nat.zero_div]; rfl
  | succ m => rfl

/-- Floor remainder of cast naturals is cast natural remainder. -/
theorem fmod_ofNat (m n : Nat) : Int.fmod (Int.ofNat m) (Int.ofNat n) = Int.ofNat (m % n) := by
  cases m with
  | zero => show (0 : Int) = Int.ofNat (0 % n); rw [Nat.zero_mod]; rfl
  | succ m => rfl

/-- C4: `format_token_balance` refines the spec's `format_amount` description
on every non-negative integer quantity string and every positive
power-of-ten divisor string, and the spec's two concrete examples hold
(`"0"` maps to `"0"` for *any* divisor string). -/
theorem format_token_balance_matches_spec :
    (∀ (q d : String) (n k : Nat),
        pyInt? q = some (n : Int) → pyInt? d = some ((10 ^ k : Nat) : Int) →
        format_token_balance q d = format_amount_spec n (10 ^ k)) ∧
    format_token_balance "1500000000000000000" "1000000000000000000" = "1.5" ∧
    (∀ d : String, format_token_balance "0" d = "0") := by
  refine ⟨?_, by decide, fun d => rfl⟩
  intro q d n k hq hd
  by_cases hq0 : q = "" ∨ q = "0"
  · rcases hq0 with h | h
    · subst h
      rw [show pyInt? "" = none from rfl] at hq
      exact absurd hq (by simp)
    · subst h
      rw [show pyInt? "0" = some (((0 : Nat) : Int)) from rfl] at hq
      have hn : n = 0 := by
        injection hq with hq'
        exact_mod_cast hq'.symm
      subst hn
      show format_token_balance "0" d = format_amount_spec 0 (10 ^ k)
      rw [show format_token_balance "0" d = "0" from rfl]
      unfold format_amount_spec
      simp [natToString]
  · have hd0 : ¬((10 ^ k : Nat) : Int) = 0 := by positivity
    have hfd : Int.fdiv (n : Int) ((10 ^ k : Nat) : Int) = ((n / 10 ^ k : Nat) : Int) :=
      fdiv_ofNat n (10 ^ k)
    have hfm : Int.fmod (n : Int) ((10 ^ k : Nat) : Int) = ((n % 10 ^ k : Nat) : Int) :=
      fmod_ofNat n (10 ^ k)
    unfold format_token_balance format_amount_spec
    rw [if_neg hq0, hq, hd]
    simp only [hfd, hfm, if_neg hd0]
    by_cases hf : n % 10 ^ k = 0
    · rw [hf]
      simp only [Int.natCast_zero, if_pos rfl, if_pos hf]
      exact intToString_natCast _
    · rw [if_neg (by exact_mod_cast hf), if_neg hf]
      rw [intToString_natCast, intToString_natCast, intToString_natCast]
      rw [pyZfill_of_digits _ (natToString_isDigit _)]
      by_cases hs : rstripChar (leftPadZeros (natToString (n % 10 ^ k)) ((natToString (10 ^ k)).length - 1)) '0' = ""
      · rw [hs]
        simp
      · rw [if_neg hs]
        simp [hs]

/-- Witness for C4's universally quantified part at a concrete input. -/
theorem format_token_balance_matches_spec_witness :
    format_token_balance "7" "10" = format_amount_spec 7 (10 ^ 1) :=
  format_token_balance_matches_spec.1 "7" "10" 7 1 rfl rfl

/-! ### Chain registry theorems -/

/-- Lookup misses when the key is not among the dict's keys. -/
theorem dictGet_eq_none {α : Type} :
    ∀ (l : List (String × α)) (t : String), t ∉ l.map Prod.fst → dictGet l t = none := by
  intro l
  induction l with
  | nil => intro t _; rfl
  | cons hd tl ih =>
    intro t ht
    simp only [List.map_cons, List.mem_cons, not_or] at ht
    unfold dictGet
    rw [if_neg ht.1]
    exact ih t ht.2

/-- C9: resolving any casing of a canonical network name gives the same
`ChainInfo` as resolving its chain-id string; in particular
`resolve "1" = resolve "ethereum"` (and the result exists); any string whose
lowercase form is neither a supported chain id nor a supported network name
resolves to `none`, e.g. `"notachain"`. -/
theorem get_chain_info_alias_equiv :
    (∀ p ∈ NETWORK_NAME_TO_CHAIN_ID, ∀ s : String,
        pyLower s = p.1 → get_chain_info s = get_chain_info p.2) ∧
    get_chain_info "1" = get_chain_info "ethereum" ∧
    (get_chain_info "ethereum").isSome = true ∧
    (∀ s : String, pyLower s ∉ SUPPORTED_CHAINS.map Prod.fst →
        pyLower s ∉ NETWORK_NAME_TO_CHAIN_ID.map Prod.fst → get_chain_info s = none) ∧
    get_chain_info "notachain" = none := by
  refine ⟨?_, by decide, by decide, ?_, by decide⟩
  · intro p hp s hs
    fin_cases hp <;>
      · simp only [get_chain_info]
        rw [hs]
        decide
  · intro s h1 h2
    simp only [get_chain_info]
    rw [dictGet_eq_none _ _ h1, dictGet_eq_none _ _ h2]

/-- Witness for C9 at a concrete mixed-case input. -/
theorem get_chain_info_alias_equiv_witness :
    get_chain_info "POLYGON" = get_chain_info "137" ∧ get_chain_info "xrp" = none :=
  ⟨get_chain_info_alias_equiv.1 ("polygon", "137") (by decide) "POLYGON" (by decide),
    get_chain_info_alias_equiv.2.2.2.1 "xrp" (by decide) (by decide)⟩

/-! ### Totality of `format_token_balance` (C10) -/

/-- Bool test: does `s` begin with `p`? -/
def strBegins (s p : String) : Bool := p.data.isPrefixOf s.data

/-- The data of an append is the append of the data. -/
theorem strData_append (a b : String) : (a ++ b).data = a.data ++ b.data := by
  cases a; cases b; rfl

/-- A prefix of a list is a prefix of that list extended on the right. -/
theorem isPrefixOf_append {l₁ l₂ : List Char} (l₃ : List Char)
    (h : l₁.isPrefixOf l₂ = true) : l₁.isPrefixOf (l₂ ++ l₃) = true := by
  rw [List.isPrefixOf_iff_prefix] at h ⊢
  exact h.trans (l₂.prefix_append l₃)

/-- C10 counterexample: a quantity of `"0"` returns `"0"` before either input
is parsed, so a non-numeric divisor does *not* produce the error string. -/
theorem format_token_balance_zero_quantity_skips_parse :
    format_token_balance "0" "xyz" = "0" ∧
    strBegins (format_token_balance "0" "xyz") "Error formatting balance:" = false := by
  decide

/-- C10 (amended): `format_token_balance` is total on arbitrary string pairs:
an empty or `"0"` quantity short-circuits to `"0"` whatever the divisor; for
other quantities, a parsed quantity with a zero-valued divisor is returned
undivided as `str(int(quantity))`, and a failing parse of either input
produces a string beginning `"Error formatting balance:"`. -/
theorem format_token_balance_total_amended :
    (∀ d : String, format_token_balance "" d = "0" ∧ format_token_balance "0" d = "0") ∧
    (∀ (q d : String) (z : Int), ¬(q = "" ∨ q = "0") →
        pyInt? q = some z → pyInt? d = some 0 →
        format_token_balance q d = intToString z) ∧
    (∀ q d : String, ¬(q = "" ∨ q = "0") → pyInt? q = none →
        strBegins (format_token_balance q d) "Error formatting balance:" = true) ∧
    (∀ (q d : String) (z : Int), ¬(q = "" ∨ q = "0") →
        pyInt? q = some z → pyInt? d = none →
        strBegins (format_token_balance q d) "Error formatting balance:" = true) := by
  refine ⟨fun d => ⟨rfl, rfl⟩, ?_, ?_, ?_⟩
  · intro q d z hq0 hq hd
    unfold format_token_balance
    rw [if_neg hq0, hq, hd]
    simp
  · intro q d hq0 hq
    unfold format_token_balance
    rw [if_neg hq0, hq]
    unfold strBegins
    rw [strData_append, strData_append]
    rw [List.append_assoc]
    exact isPrefixOf_append _ (by decide)
  · intro q d z hq0 hq hd
    unfold format_token_balance
    rw [if_neg hq0, hq, hd]
    unfold strBegins
    rw [strData_append, strData_append]
    rw [List.append_assoc]
    exact isPrefixOf_append _ (by decide)

/-- Witness for C10's amended parts at concrete inputs. -/
theorem format_token_balance_total_amended_witness :
    format_token_balance "7" "0" = intToString 7 ∧
    strBegins (format_token_balance "a" "10") "Error formatting balance:" = true ∧
    strBegins (format_token_balance "7" "b") "Error formatting balance:" = true :=
  ⟨format_token_balance_total_amended.2.1 "7" "0" 7 (by decide) rfl rfl,
    format_token_balance_total_amended.2.2.1 "a" "10" (by decide) rfl,
    format_token_balance_total_amended.2.2.2 "7" "b" 7 (by decide) rfl rfl⟩

/-! ### Facade construction (C8) -/

/-- The constructor's `ValueError` message. -/
def keyRequiredMsg : String :=
  "The Graph API key is required. Provide it as parameter or set THEGRAPH_API_KEY environment variable."

/-- C8: constructing the facade with no key available (explicit parameter
and environment both absent or empty) fails at construction time, before any
request can exist; a non-empty key from either source succeeds and is
retained. -/
theorem TheGraphClient_init_spec :
    TheGraphClient_init none none = .error keyRequiredMsg ∧
    TheGraphClient_init (some "") none = .error keyRequiredMsg ∧
    TheGraphClient_init (some "") (some "") = .error keyRequiredMsg ∧
    (∀ k : String, k ≠ "" → ∀ env : Option String,
        TheGraphClient_init (some k) env = .ok ⟨k⟩) ∧
    (∀ k : String, k ≠ "" → TheGraphClient_init none (some k) = .ok ⟨k⟩) := by
  refine ⟨rfl, rfl, rfl, ?_, ?_⟩
  · intro k hk env
    simp [TheGraphClient_init, pyOrKey, hk]
  · intro k hk
    simp [TheGraphClient_init, pyOrKey, hk]

/-- Witness for C8 at concrete keys. -/
theorem TheGraphClient_init_spec_witness :
    TheGraphClient_init (some "jwt") none = .ok ⟨"jwt"⟩ ∧
    TheGraphClient_init none (some "envjwt") = .ok ⟨"envjwt"⟩ :=
  ⟨TheGraphClient_init_spec.2.2.2.1 "jwt" (by decide) none,
    TheGraphClient_init_spec.2.2.2.2 "envjwt" (by decide)⟩

/-! ### `format_usd_value` sign handling (C5) -/

/-- C5: in the scientific, six-decimal and plain two-decimal branches the
source formats the signed `value` while also prepending `sign`, so negative
inputs produce a doubled minus sign; the suffix branches format `abs_value`
and produce a single sign as the spec describes. -/
theorem format_usd_value_negative_double_sign :
    format_usd_value ⟨-5, 1⟩ = "-$-5.00" ∧
    format_usd_value ⟨-5, 1000⟩ = "-$-0.005000" ∧
    format_usd_value ⟨-1, 10000000⟩ = "-$-1.00e-07" ∧
    format_usd_value ⟨-1500, 1⟩ = "-$1.50K" ∧
    format_usd_value ⟨-1234567, 1⟩ = "-$1.23M" := by
  decide

/-! ### Native zero-balance handling (C3) -/

/-- C3 counterexample: the facade's `get_native_balance` returns `None` (an
absence), not a zero-balance success, when the first response item carries
the literal amount `"0"`. -/
theorem get_native_balance_zero_amount_is_none :
    get_native_balance "ethereum" (.resp 200 [⟨"0", none⟩]) = .ok none := rfl

/-- C3 (amended): on a first response item with literal amount `"0"`, the
ethereum dict-based native fetch returns a zero-balance success record with
no error; the facade returns `None`; and the thegraph dict-based native fetch
returns an error record on every call with a valid key and supported network,
because its request parameters are assigned only in dead code (the read of
the still-unassigned local raises `UnboundLocalError`). -/
theorem native_zero_amount_behavior :
    (∀ key : String, key ≠ "" → ∀ (bal : Option String) (rest : List DictNativeEntry),
        get_native_eth_balance_thegraph (some key) none (.resp 200 (⟨some "0", bal⟩ :: rest))
          = ⟨"native", "ETH", "0x0", "0", "0", 18, some "Ethereum", some "1", none⟩) ∧
    (∀ (bal : Option String) (rest : List FacadeNativeEntry),
        get_native_balance "ethereum" (.resp 200 (⟨"0", bal⟩ :: rest)) = .ok none) ∧
    (∀ (addr key : String), key ≠ "" →
        get_native_balance_thegraph addr "ethereum" (some key) none
          = ⟨"native", "ETH", "0x0", "0", "0", 18, none, none,
              some ("Error fetching native balance: " ++ queryParamsUnboundMsg)⟩) := by
  refine ⟨?_, ?_, ?_⟩
  · intro key hk bal rest
    simp [get_native_eth_balance_thegraph, pyOrKey, hk, pyOrStrD]
  · intro bal rest
    rfl
  · intro addr key hk
    simp [get_native_balance_thegraph, pyOrKey, hk]
    decide

/-- Witness for C3's amended statement at concrete inputs. -/
theorem native_zero_amount_behavior_witness :
    get_native_eth_balance_thegraph (some "k") none (.resp 200 [⟨some "0", none⟩])
        = ⟨"native", "ETH", "0x0", "0", "0", 18, some "Ethereum", some "1", none⟩ ∧
    get_native_balance "ethereum" (.resp 200 [⟨"0", none⟩]) = .ok none ∧
    get_native_balance_thegraph "0xabc" "ethereum" (some "k") none
        = ⟨"native", "ETH", "0x0", "0", "0", 18, none, none,
            some ("Error fetching native balance: " ++ queryParamsUnboundMsg)⟩ :=
  ⟨native_zero_amount_behavior.1 "k" (by decide) none [],
    native_zero_amount_behavior.2.1 none [],
    native_zero_amount_behavior.2.2 "0xabc" "k" (by decide)⟩

/-! ### Pagination scenarios shared by the loop theorems -/

/-- A sample raw token item (amount `"0"`, 6 decimals). -/
def sampleEntryD : DictEntry := ⟨some "0xc0", some "Token Zero", some "TKZ", some "0", none, some 6⟩

/-- A full page of ten items. -/
def fullPage10 : List DictEntry := List.replicate 10 sampleEntryD

/-- The token dict the dict-based loops build from `sampleEntryD` on
Ethereum. -/
def sampleTokenDict : TokenDict :=
  ⟨"ERC20", "TKZ", "0xc0", some "Token Zero", "0", "0", 6, some "0.00",
    some "Ethereum", some "1", none⟩

/-- Upstream: page 1 succeeds with a full page, page 2 answers 401. -/
def upAuthAfterOnePage : Nat → Nat → HttpResult DictEntry := fun p _ =>
  if p = 1 then .resp 200 fullPage10 else .resp 401 []

/-- Upstream: page 1 succeeds with a full page, page 2 is empty. -/
def upEmptyAfterOnePage : Nat → Nat → HttpResult DictEntry := fun p _ =>
  if p = 1 then .resp 200 fullPage10 else .resp 200 []

/-- Upstream: page 1 succeeds with a full page, page 2 times out. -/
def upTimeoutAfterOnePage : Nat → Nat → HttpResult DictEntry := fun p _ =>
  if p = 1 then .resp 200 fullPage10 else .timeoutExc "timed out"

/-- Upstream that always returns a full page (pagination never exhausts). -/
def upAlwaysFullD : Nat → Nat → HttpResult DictEntry := fun _ _ => .resp 200 fullPage10

/-- A sample facade-path item and the always-full upstream for the facade. -/
def sampleEntryF : FacadeEntry := ⟨"0xc0", "Token Zero", "TKZ", "0", none, 6⟩

/-- Always-full upstream for the facade pagination loop. -/
def upAlwaysFullF : Nat → Nat → HttpResult FacadeEntry := fun _ _ =>
  .resp 200 (List.replicate 10 sampleEntryF)

/-! ### Partial-result preservation (C1) -/

/-- C1 counterexample: after one fully successful page, a 401 on page 2 makes
both dict-based loops return an *empty* token list with the auth error —
the ten accumulated tokens (returned intact when page 2 is merely empty, or
when page 2 times out) are discarded. -/
theorem auth_failure_discards_partial_results :
    (get_all_token_balances_thegraph (some "k") none "ethereum" upAuthAfterOnePage 5).result
        = some ⟨[], some authMsg⟩ ∧
    (get_all_token_balances_thegraph (some "k") none "ethereum" upEmptyAfterOnePage 5).result
        = some ⟨List.replicate 10 sampleTokenDict, none⟩ ∧
    (get_all_token_balances_thegraph (some "k") none "ethereum" upTimeoutAfterOnePage 5).result
        = some ⟨List.replicate 10 sampleTokenDict,
            some "Error fetching token balances: timed out"⟩ ∧
    (get_multiple_token_balances_ethereum_thegraph (some "k") none none upAuthAfterOnePage 5).result
        = some ⟨[], some authMsg⟩ := by
  decide

/-- The per-page item loop only appends: the accumulator is a prefix of its
output. -/
theorem processTokensTG_prefix (ci : ChainInfo) :
    ∀ (l : List DictEntry) (acc : List TokenDict), acc <+: (processTokensTG ci l acc).1 := by
  intro l
  induction l with
  | nil => intro acc; simp [processTokensTG]
  | cons b rest ih =>
    intro acc
    simp only [processTokensTG]
    cases hm : pyFloat? (b.amount.getD "0") with
    | none => simp
    | some q =>
      exact (List.prefix_append acc _).trans (ih _)

/-- Same for the ethereum item loop (the symbol filter may skip an item, but
never removes earlier ones). -/
theorem processTokensEth_prefix (syms : Option (List String)) :
    ∀ (l : List DictEntry) (acc : List TokenDict), acc <+: (processTokensEth syms l acc).1 := by
  intro l
  induction l with
  | nil => intro acc; simp [processTokensEth]
  | cons b rest ih =>
    intro acc
    simp only [processTokensEth]
    cases hm : pyFloat? (b.amount.getD "0") with
    | none => simp
    | some q =>
      dsimp only
      split
      · exact (List.prefix_append acc _).trans (ih _)
      · exact ih acc

/-- C1 (amended): whenever either dict-based pagination loop returns, the
tokens accumulated so far are preserved as a prefix of the returned list —
except in the 401/403 branches, which return an empty list together with the
auth/forbidden error (discarding partial results); the loop itself never
raises (it returns a dict on every path by construction). -/
theorem pagination_partial_results_amended :
    (∀ (ci : ChainInfo) (up : Nat → Nat → HttpResult DictEntry) (fuel page att : Nat)
        (acc : List TokenDict) (tr : List (Nat × Nat)) (d : TokensDict),
        (tgLoopAux ci up fuel page att acc tr).result = some d →
        acc <+: d.tokens ∨
          (d.tokens = [] ∧ (d.error = some authMsg ∨ d.error = some forbMsg))) ∧
    (∀ (syms : Option (List String)) (up : Nat → Nat → HttpResult DictEntry)
        (fuel page att : Nat) (acc : List TokenDict) (tr : List (Nat × Nat)) (d : TokensDict),
        (ethLoopAux syms up fuel page att acc tr).result = some d →
        acc <+: d.tokens ∨
          (d.tokens = [] ∧ (d.error = some authMsg ∨ d.error = some forbMsg))) := by
  constructor
  · intro ci up fuel
    induction fuel with
    | zero =>
      intro page att acc tr d h
      simp [tgLoopAux] at h
    | succ f ih =>
      intro page att acc tr d h
      rw [tgLoopAux] at h
      cases hr : up page att with
      | resp status data =>
        rw [hr] at h
        dsimp only at h
        split at h
        · replace h : some (⟨[], some authMsg⟩ : TokensDict) = some d := h
          injection h with h
          subst h
          exact Or.inr ⟨rfl, Or.inl rfl⟩
        · split at h
          · replace h : some (⟨[], some forbMsg⟩ : TokensDict) = some d := h
            injection h with h
            subst h
            exact Or.inr ⟨rfl, Or.inr rfl⟩
          · split at h
            · exact ih _ _ _ _ _ h
            · split at h
              · replace h : some (⟨acc, some _⟩ : TokensDict) = some d := h
                injection h with h
                subst h
                exact Or.inl (List.prefix_refl acc)
              · split at h
                · replace h : some (⟨acc, none⟩ : TokensDict) = some d := h
                  injection h with h
                  subst h
                  exact Or.inl (List.prefix_refl acc)
                · rcases hp : processTokensTG ci data acc with ⟨toks, oe⟩
                  rw [hp] at h
                  have hpre : acc <+: toks := by
                    have := processTokensTG_prefix ci data acc
                    rw [hp] at this
                    exact this
                  cases oe with
                  | some e =>
                    dsimp only at h
                    replace h : some (⟨toks, some e⟩ : TokensDict) = some d := h
                    injection h with h
                    subst h
                    exact Or.inl hpre
                  | none =>
                    dsimp only at h
                    split at h
                    · replace h : some (⟨toks, none⟩ : TokensDict) = some d := h
                      injection h with h
                      subst h
                      exact Or.inl hpre
                    · rcases ih _ _ _ _ _ h with h' | h'
                      · exact Or.inl (hpre.trans h')
                      · exact Or.inr h'
      | timeoutExc m =>
        rw [hr] at h
        replace h : some (⟨acc, some ("Error fetching token balances: " ++ m)⟩ : TokensDict)
            = some d := h
        injection h with h
        subst h
        exact Or.inl (List.prefix_refl acc)
      | connectExc m =>
        rw [hr] at h
        replace h : some (⟨acc, some ("Error fetching token balances: " ++ m)⟩ : TokensDict)
            = some d := h
        injection h with h
        subst h
        exact Or.inl (List.prefix_refl acc)
      | networkExc m =>
        rw [hr] at h
        replace h : some (⟨acc, some ("Error fetching token balances: " ++ m)⟩ : TokensDict)
            = some d := h
        injection h with h
        subst h
        exact Or.inl (List.prefix_refl acc)
  · intro syms up fuel
    induction fuel with
    | zero =>
      intro page att acc tr d h
      simp [ethLoopAux] at h
    | succ f ih =>
      intro page att acc tr d h
      rw [ethLoopAux] at h
      split at h
      · replace h : some (⟨acc, some limitMsg⟩ : TokensDict) = some d := h
        injection h with h
        subst h
        exact Or.inl (List.prefix_refl acc)
      · cases hr : up page att with
        | timeoutExc m =>
          rw [hr] at h
          replace h : some (⟨acc, some ("Network error during pagination: " ++ m)⟩ : TokensDict)
              = some d := h
          injection h with h
          subst h
          exact Or.inl (List.prefix_refl acc)
        | connectExc m =>
          rw [hr] at h
          replace h : some (⟨acc, some ("Network error during pagination: " ++ m)⟩ : TokensDict)
              = some d := h
          injection h with h
          subst h
          exact Or.inl (List.prefix_refl acc)
        | networkExc m =>
          rw [hr] at h
          replace h : some (⟨acc, some ("Network error during pagination: " ++ m)⟩ : TokensDict)
              = some d := h
          injection h with h
          subst h
          exact Or.inl (List.prefix_refl acc)
        | resp status data =>
          rw [hr] at h
          dsimp only at h
          split at h
          · replace h : some (⟨[], some authMsg⟩ : TokensDict) = some d := h
            injection h with h
            subst h
            exact Or.inr ⟨rfl, Or.inl rfl⟩
          · split at h
            · replace h : some (⟨[], some forbMsg⟩ : TokensDict) = some d := h
              injection h with h
              subst h
              exact Or.inr ⟨rfl, Or.inr rfl⟩
            · split at h
              · exact ih _ _ _ _ _ h
              · split at h
                · replace h : some (⟨acc, some _⟩ : TokensDict) = some d := h
                  injection h with h
                  subst h
                  exact Or.inl (List.prefix_refl acc)
                · split at h
                  · replace h : some (⟨acc, none⟩ : TokensDict) = some d := h
                    injection h with h
                    subst h
                    exact Or.inl (List.prefix_refl acc)
                  · rcases hp : processTokensEth syms data acc with ⟨toks, oe⟩
                    rw [hp] at h
                    have hpre : acc <+: toks := by
                      have := processTokensEth_prefix syms data acc
                      rw [hp] at this
                      exact this
                    cases oe with
                    | some e =>
                      dsimp only at h
                      replace h : some (⟨toks, some e⟩ : TokensDict) = some d := h
                      injection h with h
                      subst h
                      exact Or.inl hpre
                    | none =>
                      dsimp only at h
                      split at h
                      · replace h : some (⟨toks, none⟩ : TokensDict) = some d := h
                        injection h with h
                        subst h
                        exact Or.inl hpre
                      · rcases ih _ _ _ _ _ h with h' | h'
                        · exact Or.inl (hpre.trans h')
                        · exact Or.inr h'

/-- Witness for C1's amended statement: a timeout on page 3, starting from
one already-accumulated token, preserves that token. -/
theorem pagination_partial_results_amended_witness :
    [sampleTokenDict] <+:
        (⟨List.replicate 11 sampleTokenDict,
          some "Error fetching token balances: timed out"⟩ : TokensDict).tokens ∨
      ((⟨List.replicate 11 sampleTokenDict,
          some "Error fetching token balances: timed out"⟩ : TokensDict).tokens = [] ∧
        ((some "Error fetching token balances: timed out" = some authMsg) ∨
          (some "Error fetching token balances: timed out" = some forbMsg))) := by
  have h := pagination_partial_results_amended.1 ⟨"1", "Ethereum", "ETH", "mainnet"⟩
    upTimeoutAfterOnePage 5 1 0 [sampleTokenDict] [] ⟨List.replicate 11 sampleTokenDict,
      some "Error fetching token balances: timed out"⟩ (by decide)
  exact h

/-! ### Page ceiling (C2) -/

/-- Against an upstream of endless full pages the facade loop never returns:
it has no page ceiling. -/
theorem facadeLoopAux_upAlwaysFull_running :
    ∀ (fuel page att : Nat) (acc : List TokenBalance) (tr : List (Nat × Nat)),
      (facadeLoopAux "ethereum" upAlwaysFullF fuel page att acc tr).result = none := by
  intro fuel
  induction fuel with
  | zero => intro page att acc tr; rfl
  | succ f ih =>
    intro page att acc tr
    show (facadeLoopAux "ethereum" upAlwaysFullF f (page + 1) 0
        (acc ++ List.replicate 10 (facadeToken ⟨"1", "Ethereum", "ETH", "mainnet"⟩ sampleEntryF))
        (tr ++ [(page, att)])).result = none
    exact ih _ _ _ _

/-- C2 counterexample: with 120 iterations of fuel against endless full
pages, the facade's all-tokens loop is still running — it has requested page
110, far beyond any 50-to-100 ceiling, and has returned nothing (in
particular no "maximum page limit" error). -/
theorem facade_all_tokens_has_no_ceiling :
    (get_all_token_balances "ethereum" upAlwaysFullF 120).result.isNone = true ∧
    ((get_all_token_balances "ethereum" upAlwaysFullF 120).trace.map Prod.fst).contains 110
      = true := by
  constructor
  · rw [show (get_all_token_balances "ethereum" upAlwaysFullF 120).result = none from
      facadeLoopAux_upAlwaysFull_running 120 1 0 [] []]
    rfl
  · decide

set_option maxRecDepth 100000 in
/-- C2 (amended): only the ethereum per-network loop enforces a page ceiling
(50 pages), returning the accumulated tokens with the "maximum page limit"
error and having requested exactly pages 1 to 50; the facade's all-tokens
loop has no ceiling and, against endless full pages, never returns for any
amount of fuel. -/
theorem pagination_ceiling_amended :
    (∀ fuel : Nat, (get_all_token_balances "ethereum" upAlwaysFullF fuel).result = none) ∧
    ((get_multiple_token_balances_ethereum_thegraph (some "k") none none upAlwaysFullD 60).result.map
        (fun d => (d.error, d.tokens.length)) = some (some limitMsg, 500)) ∧
    ((get_multiple_token_balances_ethereum_thegraph (some "k") none none upAlwaysFullD 60).trace.map
        Prod.fst = (List.range 50).map (· + 1)) := by
  refine ⟨fun fuel => facadeLoopAux_upAlwaysFull_running fuel 1 0 [] [], by decide, by decide⟩

/-! ### Symbol lookup (C6) -/

/-- A one-token upstream: page 1 holds a single USDC item, later pages are
empty (a short first page, so pagination stops after it). -/
def upOneUsdcD : Nat → Nat → HttpResult DictEntry := fun p _ =>
  if p = 1 then .resp 200 [⟨some "0xa0b8", some "USD Coin", some "USDC", some "0", none, some 6⟩]
  else .resp 200 []

/-- The same upstream for the facade path. -/
def upOneUsdcF : Nat → Nat → HttpResult FacadeEntry := fun p _ =>
  if p = 1 then .resp 200 [⟨"0xa0b8", "USD Coin", "USDC", "0", none, 6⟩]
  else .resp 200 []

/-- The token dict the thegraph loop builds for that USDC item. -/
def usdcTokenDict : TokenDict :=
  ⟨"ERC20", "USDC", "0xa0b8", some "USD Coin", "0", "0", 6, some "0.00",
    some "Ethereum", some "1", none⟩

/-- The `TokenBalance` the facade builds for that USDC item. -/
def usdcTokenBalance : TokenBalance :=
  ⟨"0xa0b8", "USD Coin", "USDC", "0", "1000000", "0", some "1", some "Ethereum"⟩

/-- C6: with a retrievable token list holding a token stored as `"USDC"`, the
facade's `get_token_balance_by_symbol` queried as `"usdc"` returns that token
(and `None` for an absent symbol) — but the dict-based
`get_token_balance_thegraph` returns the *whole* multi-token dict, never a
single token record, because `"error" in all_tokens` is a key-membership test
that is true on every path. -/
theorem get_token_balance_thegraph_returns_whole_dict :
    get_token_balance_thegraph "0xwallet" "usdc" "ethereum" (some "k") none upOneUsdcD 5
        = some (.wholeDict ⟨[usdcTokenDict], none⟩) ∧
    get_token_balance_by_symbol "ethereum" "usdc" upOneUsdcF 5
        = some (.ok (some usdcTokenBalance)) ∧
    get_token_balance_by_symbol "ethereum" "WBTC" upOneUsdcF 5
        = some (.ok none) ∧
    usdcTokenBalance.token_symbol = "USDC" := by
  refine ⟨by decide, rfl, rfl, rfl⟩

/-! ### Request ordering (C7) -/

/-- Is this response a 429 (the only retried outcome)? -/
def is429 {α : Type} : HttpResult α → Bool
  | .resp status _ => status == 429
  | _ => false

/-- The relation between one request and the next in a pagination run: a
rate-limited request is retried (same page, next attempt); any other
response that is followed by a further request advances to the next page,
first attempt. -/
def pageStep {α : Type} (up : Nat → Nat → HttpResult α) (x y : Nat × Nat) : Prop :=
  (is429 (up x.1 x.2) = true ∧ y = (x.1, x.2 + 1)) ∨
  (is429 (up x.1 x.2) = false ∧ y = (x.1 + 1, 0))

/-- Trace invariant of the thegraph dict loop: if the requests made so far
followed by the pending request form a `pageStep` chain, the final trace is a
`pageStep` chain extending the old trace, and its first new request is the
pending one. -/
theorem tgLoopAux_trace (ci : ChainInfo) (up : Nat → Nat → HttpResult DictEntry) :
    ∀ (fuel page att : Nat) (acc : List TokenDict) (tr : List (Nat × Nat)),
      List.Chain' (pageStep up) (tr ++ [(page, att)]) →
      List.Chain' (pageStep up) (tgLoopAux ci up fuel page att acc tr).trace ∧
        ∃ rest, (tgLoopAux ci up fuel page att acc tr).trace = tr ++ rest ∧
          (rest = [] ∨ rest.head? = some (page, att)) := by
  intro fuel
  induction fuel with
  | zero =>
    intro page att acc tr hch
    exact ⟨(List.chain'_append.mp hch).1, [], (List.append_nil tr).symm, Or.inl rfl⟩
  | succ f ih =>
    intro page att acc tr hch
    rw [tgLoopAux]
    cases hr : up page att with
    | resp status data =>
      dsimp only
      by_cases h401 : status = 401
      · rw [if_pos h401]
        exact ⟨hch, [(page, att)], rfl, Or.inr rfl⟩
      · rw [if_neg h401]
        by_cases h403 : status = 403
        · rw [if_pos h403]
          exact ⟨hch, [(page, att)], rfl, Or.inr rfl⟩
        · rw [if_neg h403]
          by_cases h429 : status = 429
          · rw [if_pos h429]
            have hstep : pageStep up (page, att) (page, att + 1) :=
              Or.inl ⟨by rw [hr]; simp [is429, h429], rfl⟩
            have hch2 : List.Chain' (pageStep up) ((tr ++ [(page, att)]) ++ [(page, att + 1)]) := by
              rw [List.chain'_append]
              refine ⟨hch, List.chain'_singleton _, ?_⟩
              intro x hx y hy
              simp at hx hy
              rw [← hx, ← hy]
              exact hstep
            obtain ⟨hchain, rest, hre, hh⟩ := ih page (att + 1) acc (tr ++ [(page, att)]) hch2
            refine ⟨hchain, (page, att) :: rest, ?_, Or.inr rfl⟩
            rw [hre, List.append_assoc, List.singleton_append]
          · rw [if_neg h429]
            have hadv : pageStep up (page, att) (page + 1, 0) :=
              Or.inr ⟨by rw [hr]; simp [is429, h429], rfl⟩
            by_cases hbad : status < 200 ∨ 300 ≤ status
            · rw [if_pos hbad]
              exact ⟨hch, [(page, att)], rfl, Or.inr rfl⟩
            · rw [if_neg hbad]
              by_cases hempty : data = []
              · rw [if_pos hempty]
                exact ⟨hch, [(page, att)], rfl, Or.inr rfl⟩
              · rw [if_neg hempty]
                rcases hp : processTokensTG ci data acc with ⟨toks, oe⟩
                cases oe with
                | some e =>
                  dsimp only
                  exact ⟨hch, [(page, att)], rfl, Or.inr rfl⟩
                | none =>
                  dsimp only
                  by_cases hlen : data.length < 10
                  · rw [if_pos hlen]
                    exact ⟨hch, [(page, att)], rfl, Or.inr rfl⟩
                  · rw [if_neg hlen]
                    have hch2 : List.Chain' (pageStep up)
                        ((tr ++ [(page, att)]) ++ [(page + 1, 0)]) := by
                      rw [List.chain'_append]
                      refine ⟨hch, List.chain'_singleton _, ?_⟩
                      intro x hx y hy
                      simp at hx hy
                      rw [← hx, ← hy]
                      exact hadv
                    obtain ⟨hchain, rest, hre, hh⟩ := ih (page + 1) 0 toks (tr ++ [(page, att)]) hch2
                    refine ⟨hchain, (page, att) :: rest, ?_, Or.inr rfl⟩
                    rw [hre, List.append_assoc, List.singleton_append]
    | timeoutExc m =>
      exact ⟨hch, [(page, att)], rfl, Or.inr rfl⟩
    | connectExc m =>
      exact ⟨hch, [(page, att)], rfl, Or.inr rfl⟩
    | networkExc m =>
      exact ⟨hch, [(page, att)], rfl, Or.inr rfl⟩

/-- Trace invariant of the ethereum loop (same statement; the page ceiling
exit makes no request). -/
theorem ethLoopAux_trace (syms : Option (List String)) (up : Nat → Nat → HttpResult DictEntry) :
    ∀ (fuel page att : Nat) (acc : List TokenDict) (tr : List (Nat × Nat)),
      List.Chain' (pageStep up) (tr ++ [(page, att)]) →
      List.Chain' (pageStep up) (ethLoopAux syms up fuel page att acc tr).trace ∧
        ∃ rest, (ethLoopAux syms up fuel page att acc tr).trace = tr ++ rest ∧
          (rest = [] ∨ rest.head? = some (page, att)) := by
  intro fuel
  induction fuel with
  | zero =>
    intro page att acc tr hch
    exact ⟨(List.chain'_append.mp hch).1, [], (List.append_nil tr).symm, Or.inl rfl⟩
  | succ f ih =>
    intro page att acc tr hch
    rw [ethLoopAux]
    by_cases hceil : 50 < page
    · rw [if_pos hceil]
      exact ⟨(List.chain'_append.mp hch).1, [], (List.append_nil tr).symm, Or.inl rfl⟩
    · rw [if_neg hceil]
      cases hr : up page att with
      | resp status data =>
        dsimp only
        by_cases h401 : status = 401
        · rw [if_pos h401]
          exact ⟨hch, [(page, att)], rfl, Or.inr rfl⟩
        · rw [if_neg h401]
          by_cases h403 : status = 403
          · rw [if_pos h403]
            exact ⟨hch, [(page, att)], rfl, Or.inr rfl⟩
          · rw [if_neg h403]
            by_cases h429 : status = 429
            · rw [if_pos h429]
              have hstep : pageStep up (page, att) (page, att + 1) :=
                Or.inl ⟨by rw [hr]; simp [is429, h429], rfl⟩
              have hch2 : List.Chain' (pageStep up)
                  ((tr ++ [(page, att)]) ++ [(page, att + 1)]) := by
                rw [List.chain'_append]
                refine ⟨hch, List.chain'_singleton _, ?_⟩
                intro x hx y hy
                simp at hx hy
                rw [← hx, ← hy]
                exact hstep
              obtain ⟨hchain, rest, hre, hh⟩ := ih page (att + 1) acc (tr ++ [(page, att)]) hch2
              refine ⟨hchain, (page, att) :: rest, ?_, Or.inr rfl⟩
              rw [hre, List.append_assoc, List.singleton_append]
            · rw [if_neg h429]
              have hadv : pageStep up (page, att) (page + 1, 0) :=
                Or.inr ⟨by rw [hr]; simp [is429, h429], rfl⟩
              by_cases hbad : status < 200 ∨ 300 ≤ status
              · rw [if_pos hbad]
                exact ⟨hch, [(page, att)], rfl, Or.inr rfl⟩
              · rw [if_neg hbad]
                by_cases hempty : data = []
                · rw [if_pos hempty]
                  exact ⟨hch, [(page, att)], rfl, Or.inr rfl⟩
                · rw [if_neg hempty]
                  rcases hp : processTokensEth syms data acc with ⟨toks, oe⟩
                  cases oe with
                  | some e =>
                    dsimp only
                    exact ⟨hch, [(page, att)], rfl, Or.inr rfl⟩
                  | none =>
                    dsimp only
                    by_cases hlen : data.length < 10
                    · rw [if_pos hlen]
                      exact ⟨hch, [(page, att)], rfl, Or.inr rfl⟩
                    · rw [if_neg hlen]
                      have hch2 : List.Chain' (pageStep up)
                          ((tr ++ [(page, att)]) ++ [(page + 1, 0)]) := by
                        rw [List.chain'_append]
                        refine ⟨hch, List.chain'_singleton _, ?_⟩
                        intro x hx y hy
                        simp at hx hy
                        rw [← hx, ← hy]
                        exact hadv
                      obtain ⟨hchain, rest, hre, hh⟩ :=
                        ih (page + 1) 0 toks (tr ++ [(page, att)]) hch2
                      refine ⟨hchain, (page, att) :: rest, ?_, Or.inr rfl⟩
                      rw [hre, List.append_assoc, List.singleton_append]
      | timeoutExc m =>
        exact ⟨hch, [(page, att)], rfl, Or.inr rfl⟩
      | connectExc m =>
        exact ⟨hch, [(page, att)], rfl, Or.inr rfl⟩
      | networkExc m =>
        exact ⟨hch, [(page, att)], rfl, Or.inr rfl⟩

/-- C7: in both dict-based multi-token fetches, the requests form a
`pageStep` chain starting (when any request is made at all) at page 1,
attempt 0: pages advance one at a time, and the only repeated page is an
immediate same-page retry of a rate-limited (429) request. -/
theorem pagination_requests_in_order :
    (∀ (api_key env : Option String) (network : String)
        (up : Nat → Nat → HttpResult DictEntry) (fuel : Nat),
        List.Chain' (pageStep up)
            (get_all_token_balances_thegraph api_key env network up fuel).trace ∧
          ((get_all_token_balances_thegraph api_key env network up fuel).trace.head? = none ∨
            (get_all_token_balances_thegraph api_key env network up fuel).trace.head?
              = some (1, 0))) ∧
    (∀ (api_key env : Option String) (syms : Option (List String))
        (up : Nat → Nat → HttpResult DictEntry) (fuel : Nat),
        List.Chain' (pageStep up)
            (get_multiple_token_balances_ethereum_thegraph api_key env syms up fuel).trace ∧
          ((get_multiple_token_balances_ethereum_thegraph api_key env syms up fuel).trace.head?
              = none ∨
            (get_multiple_token_balances_ethereum_thegraph api_key env syms up fuel).trace.head?
              = some (1, 0))) := by
  constructor
  · intro api_key env network up fuel
    unfold get_all_token_balances_thegraph
    cases hk : pyOrKey api_key env with
    | none => exact ⟨List.chain'_nil, Or.inl rfl⟩
    | some key =>
      cases hc : get_chain_info network with
      | none => exact ⟨List.chain'_nil, Or.inl rfl⟩
      | some ci =>
        obtain ⟨hchain, rest, hre, hh⟩ := tgLoopAux_trace ci up fuel 1 0 [] []
          (by simp)
        rw [List.nil_append] at hre
        refine ⟨hchain, ?_⟩
        rcases hh with h | h
        · left; rw [hre, h]; rfl
        · right; rw [hre]; exact h
  · intro api_key env syms up fuel
    unfold get_multiple_token_balances_ethereum_thegraph
    cases hk : pyOrKey api_key env with
    | none => exact ⟨List.chain'_nil, Or.inl rfl⟩
    | some key =>
      obtain ⟨hchain, rest, hre, hh⟩ := ethLoopAux_trace syms up fuel 1 0 [] []
        (by simp)
      rw [List.nil_append] at hre
      refine ⟨hchain, ?_⟩
      rcases hh with h | h
      · left; rw [hre, h]; rfl
      · right; rw [hre]; exact h
